import Mathlib

/-!
Shallow embedding of the product-listing validation pipeline
(src/step4_integration.py and src/validate_json_step3.py).

Modelling choices, applied uniformly:
* Python floats are embedded as rationals (`ℚ`); the constraints involved
  (`gt=0`, `v > 1000000`) are order comparisons that agree on the values
  the claims quantify over.
* Python strings are Lean `String`s; `str.startswith` is embedded as
  `List.isPrefixOf` on the character data, and the slice `s[a:-b]` as
  `(s.data.take (s.data.length - b)).drop a`, which agrees with Python's
  clamping semantics.  `str.strip()` is embedded as `pyStrip` (ASCII
  whitespace) and `str.isalpha` as `Char.isAlpha` (ASCII letters; the
  claims' inputs are ASCII).
* A Python value that may be produced by `json.loads`, or passed as the
  `dict` argument of the pipeline, is a `Json` tree (objects keep key
  order, as Python dicts do).
* pydantic validation of `Model(**data)` is embedded field by field from
  the `Field(...)` declarations and `@field_validator`s in the source.
  pydantic collects every field error and then raises `ValidationError`;
  the source catches that and returns `None`, so at the level of return
  values the embedding is an `Option`.
* `Model(**data)` where `data` is not a mapping raises `TypeError`, which
  the source does not catch; fallible functions therefore live in
  `Except PyError`.
* The remote model client (`client.chat.completions.create`) is an
  external collaborator: it is a parameter `model : String → Option String`
  mapping the prompt to either a reply text or `none` (any exception,
  caught by the source's `except Exception`).  The `json` library's
  `loads` is likewise a parameter `loads : String → LoadResult`.
-/

namespace AILab

/-- A parsed JSON / Python value tree.  Numbers are rationals (see the
modelling notes above); object fields keep their order. -/
inductive Json where
  | null
  | bool (b : Bool)
  | num (q : ℚ)
  | str (s : String)
  | arr (elems : List Json)
  | obj (fields : List (String × Json))

/-- The enumeration `ProductCategory(str, Enum)` from the source. -/
inductive ProductCategory where
  | electronics
  | clothing
  | home_goods
  | books
  | other
deriving DecidableEq

/-- The string value carried by each `ProductCategory` member. -/
def ProductCategory.value : ProductCategory → String
  | .electronics => "electronics"
  | .clothing => "clothing"
  | .home_goods => "home_goods"
  | .books => "books"
  | .other => "other"

/-- Coercion of a string into the closed enumeration, as pydantic performs
it when validating a `ProductCategory` field. -/
def ProductCategory.fromString (s : String) : Option ProductCategory :=
  if s = "electronics" then some .electronics
  else if s = "clothing" then some .clothing
  else if s = "home_goods" then some .home_goods
  else if s = "books" then some .books
  else if s = "other" then some .other
  else none

/-- The `Product` pydantic model of step4_integration.py (note: it has no
name validator, unlike the step-3 file). -/
structure Product where
  name : String
  price : ℚ
  category : ProductCategory
  description : Option String
  brand : Option String
  in_stock : Bool
deriving DecidableEq

/-- The `ProductListingRequest` pydantic model. -/
structure ProductListingRequest where
  product : Product
  target_audience : String
  tone : String
  language : String
deriving DecidableEq

/-- The `ChatGPTResponse` pydantic model. -/
structure ChatGPTResponse where
  title : String
  description : String
  features : List String
  keywords : String
deriving DecidableEq

/-- An uncaught Python exception crossing a function boundary. -/
inductive PyError where
  | typeError
deriving DecidableEq

/-- Outcome of `json.loads` on a string: a parsed value or a
`JSONDecodeError`. -/
inductive LoadResult where
  | ok (j : Json)
  | decodeError

/-- Validation of `name: str = Field(..., min_length=1, max_length=100)`
in step4_integration.py (no letter requirement, no trimming there). -/
def validateName (j : Json) : Option String :=
  match j with
  | .str s => if 1 ≤ s.length ∧ s.length ≤ 100 then some s else none
  | _ => none

/-- Validation of `price: float = Field(..., gt=0)` followed by the
`price_not_too_high` validator (`if v > 1000000: raise`). -/
def validatePrice (j : Json) : Option ℚ :=
  match j with
  | .num q => if 0 < q then (if q ≤ 1000000 then some q else none) else none
  | _ => none

/-- Validation of `category: ProductCategory`. -/
def validateCategory (j : Json) : Option ProductCategory :=
  match j with
  | .str s => ProductCategory.fromString s
  | _ => none

/-- Validation of `Optional[str] = Field(None, max_length=m)`: an absent
field or explicit null yields `None`, a short-enough string is kept. -/
def validateOptStr (m : Nat) (j : Option Json) : Option (Option String) :=
  match j with
  | none => some none
  | some .null => some none
  | some (.str s) => if s.length ≤ m then some (some s) else none
  | some _ => none

/-- Validation of `in_stock: bool = Field(True)`. -/
def validateBoolDefault (d : Bool) (j : Option Json) : Option Bool :=
  match j with
  | none => some d
  | some (.bool b) => some b
  | some _ => none

/-- Validation of a plain `str` field with a default (`target_audience`,
`tone`, `language`). -/
def validateStrDefault (d : String) (j : Option Json) : Option String :=
  match j with
  | none => some d
  | some (.str s) => some s
  | some _ => none

/-- Field-wise validation of `Product(**fields)` in step4_integration.py. -/
def validateProductFields (fields : List (String × Json)) : Option Product := do
  let nameJ ← fields.lookup "name"
  let name ← validateName nameJ
  let priceJ ← fields.lookup "price"
  let price ← validatePrice priceJ
  let catJ ← fields.lookup "category"
  let category ← validateCategory catJ
  let description ← validateOptStr 500 (fields.lookup "description")
  let brand ← validateOptStr 50 (fields.lookup "brand")
  let in_stock ← validateBoolDefault true (fields.lookup "in_stock")
  pure ⟨name, price, category, description, brand, in_stock⟩

/-- Validation of the nested `product` field: a non-mapping nested value
is a pydantic `ValidationError` (unlike the top level, which raises
`TypeError`). -/
def validateProductJson (j : Json) : Option Product :=
  match j with
  | .obj fields => validateProductFields fields
  | _ => none

/-- Field-wise validation of `ProductListingRequest(**fields)`. -/
def validateRequestFields (fields : List (String × Json)) :
    Option ProductListingRequest := do
  let pj ← fields.lookup "product"
  let product ← validateProductJson pj
  let target_audience ← validateStrDefault "general" (fields.lookup "target_audience")
  let tone ← validateStrDefault "professional" (fields.lookup "tone")
  let language ← validateStrDefault "English" (fields.lookup "language")
  pure ⟨product, target_audience, tone, language⟩

/-- The source's `validate_input(json_data)`: it builds
`ProductListingRequest(**json_data)` catching only `ValidationError`
(returning `None`); on a non-dict argument the `**` unpacking raises
`TypeError`, which is not caught. -/
def validate_input (json_data : Json) : Except PyError (Option ProductListingRequest) :=
  match json_data with
  | .obj fields => .ok (validateRequestFields fields)
  | _ => .error .typeError

/-- Python's `s.startswith(p)`. -/
def pyStartswith (s p : String) : Bool :=
  p.data.isPrefixOf s.data

/-- The fence-stripping in `call_chatgpt`:
`content[7:-3]` when the reply starts with three backticks followed by
"json", `content[3:-3]` when it starts with a plain triple-backtick
fence, unchanged otherwise. -/
def sanitize (content : String) : String :=
  if pyStartswith content "```json" then
    String.mk ((content.data.take (content.data.length - 3)).drop 7)
  else if pyStartswith content "```" then
    String.mk ((content.data.take (content.data.length - 3)).drop 3)
  else content

/-- Rendering of the price in the f-string (the float is a rational in
this embedding). -/
def priceRepr (q : ℚ) : String := toString q

/-- Rendering of `product.category` in the f-string, by the enum member's
string value. -/
def categoryRepr (c : ProductCategory) : String := c.value

/-- Rendering of `product.brand if product.brand else 'Not specified'`
(Python truthiness: an empty string also falls back). -/
def brandRepr (brand : Option String) : String :=
  match brand with
  | some b => if b = "" then "Not specified" else b
  | none => "Not specified"

/-- Rendering of the description with its fallback text. -/
def descriptionRepr (description : Option String) : String :=
  match description with
  | some d => if d = "" then "No description provided" else d
  | none => "No description provided"

/-- Literal text of the prompt template before the product name. -/
def promptSeg1 : String :=
  "Create a product listing for marketing purposes.\n\nPRODUCT DETAILS:\n- Name: "

/-- Literal template text between the name and the price. -/
def promptSeg2 : String := "\n- Price: $"

/-- Literal template text between the price and the category. -/
def promptSeg3 : String := "\n- Category: "

/-- Literal template text between the category and the brand. -/
def promptSeg4 : String := "\n- Brand: "

/-- Literal template text between the brand and the description. -/
def promptSeg5 : String := "\n- Description: "

/-- Literal template text between the description and the stock flag. -/
def promptSeg6 : String := "\n- In Stock: "

/-- Literal template text before the target audience. -/
def promptSeg7 : String := "\n\nTARGET AUDIENCE: "

/-- Literal template text before the tone. -/
def promptSeg8 : String := "\nTONE: "

/-- Literal template text before the language. -/
def promptSeg9 : String := "\nLANGUAGE: "

/-- Closing literal template text: the in-band JSON reply-format
instructions (literal braces of the JSON example written as character
escapes). -/
def promptSeg10 : String :=
  "\n\nIMPORTANT: Respond with ONLY valid JSON in this exact format:\n\x7b\n    \"title\": \"Product title here (catchy, 60 characters max)\",\n    \"description\": \"Detailed product description (100-300 words)\",\n    \"features\": [\"Feature 1\", \"Feature 2\", \"Feature 3\", \"Feature 4\", \"Feature 5\"],\n    \"keywords\": \"comma, separated, keywords, for, seo\"\n\x7d"

/-- The prompt f-string built inside `call_chatgpt`: the fixed template
segments with every product field and the three generation parameters
substituted in source order. -/
def build_prompt (product_request : ProductListingRequest) : String :=
  promptSeg1 ++ product_request.product.name
    ++ promptSeg2 ++ priceRepr product_request.product.price
    ++ promptSeg3 ++ categoryRepr product_request.product.category
    ++ promptSeg4 ++ brandRepr product_request.product.brand
    ++ promptSeg5 ++ descriptionRepr product_request.product.description
    ++ promptSeg6 ++ (if product_request.product.in_stock then "Yes" else "No")
    ++ promptSeg7 ++ product_request.target_audience
    ++ promptSeg8 ++ product_request.tone
    ++ promptSeg9 ++ product_request.language
    ++ promptSeg10

/-- The source's `call_chatgpt`: build the prompt, send it to the
external client, and strip an optional code fence from the reply; any
exception of the client is caught and turned into `None`. -/
def call_chatgpt (model : String → Option String)
    (product_request : ProductListingRequest) : Option String :=
  match model (build_prompt product_request) with
  | none => none
  | some content => some (sanitize content)

/-- Validation of a single string field with a length interval, as for
`title`, `description` and `keywords` of `ChatGPTResponse`. -/
def validateStrLen (lo hi : Nat) (j : Option Json) : Option String :=
  match j with
  | some (.str s) => if lo ≤ s.length ∧ s.length ≤ hi then some s else none
  | _ => none

/-- Validation of `features: List[str] = Field(..., min_length=3,
max_length=10)`: every element a string, item count between 3 and 10. -/
def validateFeatures (j : Option Json) : Option (List String) :=
  match j with
  | some (.arr xs) => do
      let strs ← xs.mapM (fun e => match e with | .str s => some s | _ => none)
      if 3 ≤ strs.length ∧ strs.length ≤ 10 then some strs else none
  | _ => none

/-- Field-wise validation of `ChatGPTResponse(**fields)`. -/
def validateChatGPTFields (fields : List (String × Json)) : Option ChatGPTResponse := do
  let title ← validateStrLen 10 100 (fields.lookup "title")
  let description ← validateStrLen 100 1000 (fields.lookup "description")
  let features ← validateFeatures (fields.lookup "features")
  let keywords ← validateStrLen 10 1000000000 (fields.lookup "keywords")
  pure ⟨title, description, features, keywords⟩

/-- The source's `validate_chatgpt_response`, as a function of the
`json.loads` outcome on the reply text.  A `JSONDecodeError` and a
pydantic `ValidationError` are both caught and both return `None`; a
reply that parses to a non-object makes `ChatGPTResponse(**data)` raise
`TypeError`, which is not caught. -/
def validate_chatgpt_response (load : LoadResult) :
    Except PyError (Option ChatGPTResponse) :=
  match load with
  | .decodeError => .ok none
  | .ok (.obj fields) => .ok (validateChatGPTFields fields)
  | .ok _ => .error .typeError

/-- Serialization of an optional string field by `.dict()`. -/
def optStrToJson (s : Option String) : Json :=
  match s with
  | none => Json.null
  | some v => Json.str v

/-- Serialization of a `Product` by `.dict()`. -/
def productToJson (p : Product) : Json :=
  Json.obj [("name", Json.str p.name), ("price", Json.num p.price),
    ("category", Json.str p.category.value),
    ("description", optStrToJson p.description),
    ("brand", optStrToJson p.brand), ("in_stock", Json.bool p.in_stock)]

/-- Serialization of a `ProductListingRequest` by `.dict()`. -/
def reqToJson (r : ProductListingRequest) : Json :=
  Json.obj [("product", productToJson r.product),
    ("target_audience", Json.str r.target_audience),
    ("tone", Json.str r.tone), ("language", Json.str r.language)]

/-- Serialization of a `ChatGPTResponse` by `.dict()`. -/
def respToJson (r : ChatGPTResponse) : Json :=
  Json.obj [("title", Json.str r.title), ("description", Json.str r.description),
    ("features", Json.arr (r.features.map Json.str)),
    ("keywords", Json.str r.keywords)]

/-- The dictionary returned by `process_product_request`, with one field
per key that can occur; absent keys are `none`. -/
structure PipelineResult where
  status : String
  error : Option String
  raw_response : Option String
  input : Option Json
  output : Option Json
  message : Option String

/-- The terminal result for an invalid input. -/
def inputFailedResult : PipelineResult :=
  ⟨"input_validation_failed", some "Input data invalid", none, none, none, none⟩

/-- The terminal result for a failed (or falsy) model call. -/
def chatgptFailedResult : PipelineResult :=
  ⟨"chatgpt_failed", some "ChatGPT API call failed", none, none, none, none⟩

/-- The terminal result for an invalid model reply, carrying the raw
sanitized reply text. -/
def outputFailedResult (raw : String) : PipelineResult :=
  ⟨"output_validation_failed", some "ChatGPT response invalid", some raw, none, none, none⟩

/-- The success result, carrying both validated values as dictionaries. -/
def successResult (validated_input : ProductListingRequest)
    (validated_output : ChatGPTResponse) : PipelineResult :=
  ⟨"success", none, none, some (reqToJson validated_input),
    some (respToJson validated_output),
    some "✅ Complete pipeline successful with validation at every step!"⟩

/-- The source's `process_product_request`: validate the input, call the
model, test the reply for Python falsiness (`if not chatgpt_response`,
so `None` and the empty string both count as failure), validate the
reply, and tag the outcome.  Uncaught exceptions of the stages
propagate. -/
def process_product_request (loads : String → LoadResult)
    (model : String → Option String) (json_data : Json) :
    Except PyError PipelineResult :=
  match validate_input json_data with
  | .error e => .error e
  | .ok none => .ok inputFailedResult
  | .ok (some validated) =>
    match call_chatgpt model validated with
    | none => .ok chatgptFailedResult
    | some content =>
      if content = "" then .ok chatgptFailedResult
      else
        match validate_chatgpt_response (loads content) with
        | .error e => .error e
        | .ok none => .ok (outputFailedResult content)
        | .ok (some out) => .ok (successResult validated out)

/-- Python's `str.strip()`: drop leading and trailing whitespace
characters. -/
def pyStrip (s : String) : String :=
  String.mk (((s.data.dropWhile Char.isWhitespace).reverse.dropWhile
    Char.isWhitespace).reverse)

namespace Step3

/-- Validation of the `name` field in validate_json_step3.py: the
`Field(min_length=1, max_length=100)` bounds first, then the
`name_must_contain_letters` validator, which rejects names without a
letter and returns `v.strip()` (so the stored name is trimmed). -/
def validateName (j : Json) : Option String :=
  match j with
  | .str s =>
      if 1 ≤ s.length ∧ s.length ≤ 100 then
        (if s.data.any Char.isAlpha then some (pyStrip s) else none)
      else none
  | _ => none

/-- Field-wise validation of `Product(**fields)` in
validate_json_step3.py; only the name validator differs from the
step-4 model. -/
def validateProductFields (fields : List (String × Json)) : Option Product := do
  let nameJ ← fields.lookup "name"
  let name ← Step3.validateName nameJ
  let priceJ ← fields.lookup "price"
  let price ← validatePrice priceJ
  let catJ ← fields.lookup "category"
  let category ← validateCategory catJ
  let description ← validateOptStr 500 (fields.lookup "description")
  let brand ← validateOptStr 50 (fields.lookup "brand")
  let in_stock ← validateBoolDefault true (fields.lookup "in_stock")
  pure ⟨name, price, category, description, brand, in_stock⟩

/-- Validation of the nested `product` field of the step-3 request. -/
def validateProductJson (j : Json) : Option Product :=
  match j with
  | .obj fields => Step3.validateProductFields fields
  | _ => none

/-- Field-wise validation of `ProductListingRequest(**fields)` in
validate_json_step3.py. -/
def validateRequestFields (fields : List (String × Json)) :
    Option ProductListingRequest := do
  let pj ← fields.lookup "product"
  let product ← Step3.validateProductJson pj
  let target_audience ← validateStrDefault "general" (fields.lookup "target_audience")
  let tone ← validateStrDefault "professional" (fields.lookup "tone")
  let language ← validateStrDefault "English" (fields.lookup "language")
  pure ⟨product, target_audience, tone, language⟩

end Step3

/-- The test input of `test_integration()` in step4_integration.py, with
the price embedded as a whole number of dollars (the embedding's
rationals evaluate there; the 89.99 of the fixture plays no role in any
claim). -/
def sampleJson : Json :=
  Json.obj [("product", Json.obj [("name", Json.str "Premium Coffee Maker"),
      ("price", Json.num 90), ("category", Json.str "home_goods"),
      ("description", Json.str "Programmable coffee maker with thermal carafe"),
      ("brand", Json.str "BrewMaster"), ("in_stock", Json.bool true)]),
    ("target_audience", Json.str "home baristas"),
    ("tone", Json.str "warm and inviting"), ("language", Json.str "English")]

/-- The validated value of `sampleJson`. -/
def sampleReq : ProductListingRequest :=
  ⟨⟨"Premium Coffee Maker", 90, ProductCategory.home_goods,
    some "Programmable coffee maker with thermal carafe", some "BrewMaster", true⟩,
   "home baristas", "warm and inviting", "English"⟩

/-- A well-formed model reply value satisfying every `ChatGPTResponse`
constraint. -/
def sampleResp : ChatGPTResponse :=
  ⟨"Premium Coffee Maker - Brew Better Mornings",
   "This programmable coffee maker with a thermal carafe keeps your coffee hot for hours while delivering rich, balanced flavor every single morning at home.",
   ["Programmable timer", "Thermal carafe", "Automatic shutoff"],
   "coffee, maker, programmable, thermal, carafe"⟩

/-- A request JSON document with every field but the price fixed at
valid values, used to state the price acceptance interval. -/
def priceRequestJson (q : ℚ) : Json :=
  Json.obj [("product", Json.obj [("name", Json.str "Premium Coffee Maker"),
      ("price", Json.num q), ("category", Json.str "home_goods")]),
    ("target_audience", Json.str "home baristas")]

/-- The validated value of `priceRequestJson q` for an in-range price. -/
def priceRequest (q : ℚ) : ProductListingRequest :=
  ⟨⟨"Premium Coffee Maker", q, ProductCategory.home_goods, none, none, true⟩,
   "home baristas", "professional", "English"⟩

/-- A predicate on a `json.loads` outcome saying the reply either failed
to parse or parsed to an object, the two cases the output validator
survives without raising. -/
def loadsSafe (l : LoadResult) : Prop :=
  match l with
  | .decodeError => True
  | .ok (Json.obj _) => True
  | .ok _ => False

end AILab

namespace AILab


/-- C1 counterexample: a reply that is not JSON and a reply that is JSON of the wrong shape (an empty object) produce literally the same return value of `validate_chatgpt_response` (None), so the two failure kinds are not distinguishable at the caller's boundary. -/
theorem c1_counterexample :
    validate_chatgpt_response LoadResult.decodeError
      = validate_chatgpt_response (LoadResult.ok (Json.obj [])) ∧
    validate_chatgpt_response LoadResult.decodeError = .ok none ∧
    validateChatGPTFields [] = none :=
  ⟨rfl, rfl, rfl⟩

/-- C1 (amended): the output validator signals both failure kinds by the same return value None: a reply that does not parse as JSON returns None, and a reply that parses as JSON but violates the ModelResponse constraints also returns None. The two failure kinds are distinguished only in printed diagnostics, never in the returned result. -/
theorem c1_amended :
    validate_chatgpt_response LoadResult.decodeError = .ok none ∧
    (∀ fields, validateChatGPTFields fields = none →
      validate_chatgpt_response (LoadResult.ok (Json.obj fields)) = .ok none) :=
  ⟨rfl, fun fields h => by simp [validate_chatgpt_response, h]⟩

/-- C1 witness: the amended theorem applied to the concrete schema-violating reply fields of an empty JSON object. -/
theorem c1_witness :
    validate_chatgpt_response (LoadResult.ok (Json.obj [])) = .ok none :=
  c1_amended.2 [] rfl

/-- C10: if the model call succeeds but returns the empty string, the orchestrator's falsiness test classifies it as a model-call failure: the result is the chatgpt_failed terminal result, which carries no raw_response field, and the output validator is never consulted. -/
theorem c10 (loads : String → LoadResult) (model : String → Option String)
    (j : Json) (v : ProductListingRequest)
    (hv : validate_input j = .ok (some v))
    (hm : model (build_prompt v) = some "") :
    process_product_request loads model j = .ok chatgptFailedResult := by
  have hs : sanitize "" = "" := rfl
  simp [process_product_request, hv, call_chatgpt, hm, hs]

/-- C10 witness: the theorem applied to the concrete integration-test input with a model stub returning the empty string. -/
theorem c10_witness :
    process_product_request (fun _ => LoadResult.decodeError)
      (fun _ => some "") sampleJson = .ok chatgptFailedResult :=
  c10 _ _ sampleJson sampleReq rfl rfl

/-- C6 (amended): validate_input returns None on failure rather than a sequence of field errors, and the pipeline's failure result then carries only the fixed string Input data invalid with no field-level detail. -/
theorem c6_amended (loads : String → LoadResult) (model : String → Option String)
    (j : Json) (h : validate_input j = .ok none) :
    process_product_request loads model j = .ok inputFailedResult := by
  simp [process_product_request, h]

/-- C6 witness: the amended theorem applied to the concrete invalid input of an empty object. -/
theorem c6_witness :
    process_product_request (fun _ => LoadResult.decodeError) (fun _ => none)
      (Json.obj []) = .ok inputFailedResult :=
  c6_amended _ _ _ rfl

/-- C6 counterexample: two different invalid inputs with different violations (a missing product and a negative price) yield identical pipeline failure results whose error is the fixed string Input data invalid, so the result carries no field-level detail. -/
theorem c6_counterexample :
    process_product_request (fun _ => LoadResult.decodeError) (fun _ => none)
      (Json.obj []) = .ok inputFailedResult ∧
    process_product_request (fun _ => LoadResult.decodeError) (fun _ => none)
      (Json.obj [("product", Json.obj [("name", Json.str "Phone"),
        ("price", Json.num (-5)), ("category", Json.str "electronics")])])
      = .ok inputFailedResult ∧
    (Json.obj [] ≠ Json.obj [("product", Json.obj [("name", Json.str "Phone"),
        ("price", Json.num (-5)), ("category", Json.str "electronics")])]) ∧
    inputFailedResult.error = some "Input data invalid" ∧
    inputFailedResult.raw_response = none :=
  ⟨rfl, rfl, by simp, rfl, rfl⟩

/-- C7 counterexample: on the non-dict input 3 the orchestrator lets the TypeError raised by keyword-argument unpacking escape uncaught instead of returning a tagged result. -/
theorem c7_counterexample :
    process_product_request (fun _ => LoadResult.decodeError) (fun _ => none)
      (Json.num 3) = .error .typeError :=
  rfl

/-- C7 (amended): for object (dict) inputs and model replies whose parse outcome is a decode error or a JSON object, every stage failure becomes a tagged terminal result; but a non-dict input raises TypeError uncaught through the orchestrator, as does a reply parsing to a non-object JSON value. -/
theorem c7_amended (loads : String → LoadResult) (model : String → Option String)
    (fields : List (String × Json)) (hsafe : ∀ s, loadsSafe (loads s)) :
    ∃ r, process_product_request loads model (Json.obj fields) = .ok r := by
  unfold process_product_request
  unfold validate_input
  cases hv : validateRequestFields fields with
  | none => exact ⟨inputFailedResult, by simp [hv]⟩
  | some v =>
    cases hc : call_chatgpt model v with
    | none => exact ⟨chatgptFailedResult, by simp [hv, hc]⟩
    | some content =>
      by_cases hce : content = ""
      · exact ⟨chatgptFailedResult, by simp [hv, hc, hce]⟩
      · have := hsafe content
        cases hl : loads content with
        | decodeError =>
          exact ⟨outputFailedResult content,
            by simp [hv, hc, hce, hl, validate_chatgpt_response]⟩
        | ok j =>
          cases j with
          | obj rfields =>
            cases ho : validateChatGPTFields rfields with
            | none =>
              exact ⟨outputFailedResult content,
                by simp [hv, hc, hce, hl, validate_chatgpt_response, ho]⟩
            | some out =>
              exact ⟨successResult v out,
                by simp [hv, hc, hce, hl, validate_chatgpt_response, ho]⟩
          | null => rw [hl] at this; exact absurd this (by simp [loadsSafe])
          | bool b => rw [hl] at this; exact absurd this (by simp [loadsSafe])
          | num q => rw [hl] at this; exact absurd this (by simp [loadsSafe])
          | str s => rw [hl] at this; exact absurd this (by simp [loadsSafe])
          | arr xs => rw [hl] at this; exact absurd this (by simp [loadsSafe])

/-- C7 witness: the amended theorem applied to a concrete empty-object input with a model stub that fails and a loads stub that reports a decode error. -/
theorem c7_witness :
    ∃ r, process_product_request (fun _ => LoadResult.decodeError) (fun _ => none)
      (Json.obj []) = .ok r :=
  c7_amended _ _ [] (fun _ => trivial)

/-- C4 counterexample: the input consisting of the json fence marker followed by the body XY and no trailing fence begins with the fence marker, yet the sanitizer deletes the body and returns the empty string. -/
theorem c4_counterexample :
    pyStartswith "```jsonXY" "```json" = true ∧
    sanitize "```jsonXY" = "" ∧
    ("" : String) ≠ "XY" :=
  ⟨rfl, rfl, by decide⟩

/-- C4 (amended): for a string wrapped in an opening json fence and a trailing fence, the sanitizer removes exactly the fence markers; for a string not beginning with a fence marker it is the identity; but for a string beginning with the json fence marker and lacking a trailing fence it still deletes the final three characters of the body. -/
theorem c4_amended :
    (∀ body : String, sanitize ("```json" ++ body ++ "```") = body) ∧
    (∀ s : String, pyStartswith s "```" = false → sanitize s = s) ∧
    (∀ body : String,
      sanitize ("```json" ++ body) = String.mk (body.data.take (body.data.length - 3))) := by
  have e7 : ("```json".data).length = 7 := rfl
  have e3 : ("```".data).length = 3 := rfl
  refine ⟨?_, ?_, ?_⟩
  · intro body
    obtain ⟨b⟩ := body
    have h1 : pyStartswith ("```json" ++ ⟨b⟩ ++ "```") "```json" = true := by
      simp [pyStartswith, List.isPrefixOf_iff_prefix]
    unfold sanitize
    rw [if_pos h1]
    have hdata : ("```json" ++ (⟨b⟩ : String) ++ "```").data
        = ("```json".data ++ b) ++ "```".data := by
      simp
    rw [hdata]
    have hlen : (("```json".data ++ b) ++ "```".data).length - 3
        = ("```json".data ++ b).length := by
      simp [e3]
    rw [hlen, List.take_left, List.drop_left' e7]
  · intro s h
    have hpre : "```".data <+: "```json".data := ⟨"json".data, rfl⟩
    have h2 : pyStartswith s "```json" = false := by
      cases hx : pyStartswith s "```json" with
      | false => rfl
      | true =>
        exfalso
        rw [pyStartswith] at hx h
        rw [List.isPrefixOf_iff_prefix] at hx
        exact absurd (List.isPrefixOf_iff_prefix.mpr (hpre.trans hx)) (by simp [h])
    simp [sanitize, h2, h]
  · intro body
    obtain ⟨b⟩ := body
    have h1 : pyStartswith ("```json" ++ (⟨b⟩ : String)) "```json" = true := by
      simp [pyStartswith, List.isPrefixOf_iff_prefix]
    unfold sanitize
    rw [if_pos h1]
    have hdata : ("```json" ++ (⟨b⟩ : String)).data = "```json".data ++ b := by
      simp
    rw [hdata]
    apply congrArg String.mk
    rcases le_or_lt 3 b.length with hm | hm
    · have hidx : ("```json".data ++ b).length - 3 = 7 + (b.length - 3) := by
        simp [e7]; omega
      rw [hidx, ← List.take_drop, List.drop_left' e7]
    · have hidx : ("```json".data ++ b).length - 3 ≤ 7 := by
        simp [e7]; omega
      rw [List.take_append_of_le_length (by rw [e7]; exact hidx)]
      have hlt : (("```json".data).take (("```json".data ++ b).length - 3)).length ≤ 7 := by
        rw [List.length_take]
        exact le_trans (Nat.min_le_right _ _) (le_of_eq e7)
      rw [List.drop_eq_nil_iff.mpr hlt]
      have hz : b.length - 3 = 0 := by omega
      rw [hz, List.take_zero]

/-- C4 witness: the amended theorem's identity clause applied to the concrete unfenced string hello. -/
theorem c4_witness : sanitize "hello" = "hello" :=
  c4_amended.2.1 "hello" rfl

/-- Inversion for the step-3 name validator: an accepted name came from a string value containing a letter and is stored stripped. -/
theorem step3_validateName_some {j : Json} {r : String}
    (h : Step3.validateName j = some r) :
    ∃ s, j = Json.str s ∧ r = pyStrip s ∧ s.data.any Char.isAlpha = true := by
  cases j with
  | str s =>
    simp only [Step3.validateName] at h
    split_ifs at h with h1 h2
    exact ⟨s, rfl, (Option.some_inj.mp h).symm, h2⟩
  | null => exact absurd h (by simp [Step3.validateName])
  | bool b => exact absurd h (by simp [Step3.validateName])
  | num q => exact absurd h (by simp [Step3.validateName])
  | arr xs => exact absurd h (by simp [Step3.validateName])
  | obj fs => exact absurd h (by simp [Step3.validateName])

/-- Inversion for the step-4 name validator: an accepted name is the supplied string value unchanged, with its length between 1 and 100. -/
theorem validateName_some {j : Json} {r : String}
    (h : validateName j = some r) :
    j = Json.str r ∧ 1 ≤ r.length ∧ r.length ≤ 100 := by
  cases j with
  | str s =>
    simp only [validateName] at h
    split_ifs at h with h1
    exact ⟨congrArg Json.str (Option.some_inj.mp h), Option.some_inj.mp h ▸ h1.1,
      Option.some_inj.mp h ▸ h1.2⟩
  | null => exact absurd h (by simp [validateName])
  | bool b => exact absurd h (by simp [validateName])
  | num q => exact absurd h (by simp [validateName])
  | arr xs => exact absurd h (by simp [validateName])
  | obj fs => exact absurd h (by simp [validateName])

/-- C3 (amended): in the step-3 model, any product whose name contains no letter fails validation and every accepted product's stored name is the supplied name stripped of surrounding whitespace; the step-4 pipeline's Product model has no such validator, so its accepted names are stored exactly as supplied. -/
theorem c3_amended :
    (∀ (fields : List (String × Json)) (s : String),
      fields.lookup "name" = some (Json.str s) →
      s.data.any Char.isAlpha = false →
      Step3.validateProductFields fields = none) ∧
    (∀ (fields : List (String × Json)) (p : Product),
      Step3.validateProductFields fields = some p →
      ∃ s, fields.lookup "name" = some (Json.str s) ∧ p.name = pyStrip s) ∧
    (∀ (fields : List (String × Json)) (s : String) (p : Product),
      fields.lookup "name" = some (Json.str s) →
      validateProductFields fields = some p →
      p.name = s) := by
  refine ⟨?_, ?_, ?_⟩
  · intro fields s hlook halpha
    simp only [Step3.validateProductFields, hlook, Option.bind_eq_bind, Option.some_bind]
    simp [Step3.validateName, halpha]
  · intro fields p h
    simp only [Step3.validateProductFields, Option.bind_eq_bind, Option.bind_eq_some,
      Option.pure_def, Option.some_inj] at h
    obtain ⟨nj, hnj, nm, hnm, pj, hpj, pr, hpr, cj, hcj, c, hc, d, hd, br, hbr, st, hst, heq⟩ := h
    obtain ⟨s, rfl, htrim, _⟩ := step3_validateName_some hnm
    exact ⟨s, hnj, by rw [← heq]; exact htrim⟩
  · intro fields s p hlook h
    simp only [validateProductFields, Option.bind_eq_bind, Option.bind_eq_some,
      Option.pure_def, Option.some_inj] at h
    obtain ⟨nj, hnj, nm, hnm, pj, hpj, pr, hpr, cj, hcj, c, hc, d, hd, br, hbr, st, hst, heq⟩ := h
    rw [hlook] at hnj
    have hnj' : nj = Json.str s := (Option.some_inj.mp hnj).symm
    obtain ⟨hstr, _, _⟩ := validateName_some hnm
    rw [hnj'] at hstr
    have hs : s = nm := by injection hstr
    rw [← heq, hs]

/-- C3 counterexample: the step-4 pipeline's input validation accepts the letterless product name 12345, and accepts the name consisting of X with surrounding spaces storing it untrimmed, contradicting the claim as stated for the pipeline's ProductListingRequest. -/
theorem c3_counterexample :
    validate_input (Json.obj [("product", Json.obj [("name", Json.str "12345"),
        ("price", Json.num 5), ("category", Json.str "books")])])
      = .ok (some ⟨⟨"12345", 5, ProductCategory.books, none, none, true⟩,
        "general", "professional", "English"⟩) ∧
    "12345".data.any Char.isAlpha = false ∧
    validate_input (Json.obj [("product", Json.obj [("name", Json.str " X "),
        ("price", Json.num 5), ("category", Json.str "books")])])
      = .ok (some ⟨⟨" X ", 5, ProductCategory.books, none, none, true⟩,
        "general", "professional", "English"⟩) ∧
    pyStrip " X " ≠ " X " :=
  ⟨rfl, rfl, rfl, by decide⟩

/-- C3 witness: the amended theorem applied to concrete product fields with the letterless name 12345, which the step-3 model rejects. -/
theorem c3_witness :
    Step3.validateProductFields [("name", Json.str "12345"),
      ("price", Json.num 5), ("category", Json.str "books")] = none :=
  c3_amended.1 _ "12345" rfl rfl



/-- C5: a price at most 0 or above 1,000,000 is rejected by the price validator and by input validation of an otherwise-valid request; every price strictly between 0 and 1,000,000 inclusive of the upper bound is accepted, both by the price validator and by full input validation. -/
theorem c5 :
    (∀ q : ℚ, q ≤ 0 ∨ 1000000 < q → validatePrice (Json.num q) = none) ∧
    (∀ q : ℚ, 0 < q → q ≤ 1000000 → validatePrice (Json.num q) = some q) ∧
    (∀ q : ℚ, 0 < q → q ≤ 1000000 →
      validate_input (priceRequestJson q) = .ok (some (priceRequest q))) ∧
    (∀ q : ℚ, q ≤ 0 ∨ 1000000 < q →
      validate_input (priceRequestJson q) = .ok none) := by
  have hnone : ∀ q : ℚ, q ≤ 0 ∨ 1000000 < q → validatePrice (Json.num q) = none := by
    intro q h
    simp only [validatePrice]
    rcases h with h | h
    · rw [if_neg (not_lt.mpr h)]
    · rw [if_pos (lt_trans (by norm_num) h), if_neg (not_le.mpr h)]
  have hsome : ∀ q : ℚ, 0 < q → q ≤ 1000000 → validatePrice (Json.num q) = some q := by
    intro q h1 h2
    simp only [validatePrice]
    rw [if_pos h1, if_pos h2]
  refine ⟨hnone, hsome, ?_, ?_⟩
  · intro q h1 h2
    have hn : validateName (Json.str "Premium Coffee Maker")
        = some "Premium Coffee Maker" := rfl
    have hc : validateCategory (Json.str "home_goods")
        = some ProductCategory.home_goods := rfl
    simp [validate_input, priceRequestJson, validateRequestFields,
      validateProductJson, validateProductFields, List.lookup, hn, hc,
      hsome q h1 h2, validateOptStr, validateBoolDefault, validateStrDefault,
      priceRequest]
  · intro q h
    simp [validate_input, priceRequestJson, validateRequestFields,
      validateProductJson, validateProductFields, List.lookup,
      hnone q h]

/-- C5 witness: the boundary price of exactly 1,000,000 is accepted by full input validation. -/
theorem c5_witness :
    validate_input (priceRequestJson 1000000) = .ok (some (priceRequest 1000000)) :=
  c5.2.2.1 1000000 (by norm_num) (by norm_num)



/-- Step equation: an uncaught input-validation exception propagates out of the orchestrator. -/
theorem process_eq_of_input_error {loads model j e}
    (h : validate_input j = .error e) :
    process_product_request loads model j = .error e := by
  simp [process_product_request, h]

/-- Step equation: an invalid input short-circuits the pipeline to the fixed input-failure result. -/
theorem process_eq_of_input_none {loads model j}
    (h : validate_input j = .ok none) :
    process_product_request loads model j = .ok inputFailedResult := by
  simp [process_product_request, h]

/-- Step equation: a failed model call short-circuits the pipeline to the fixed model-failure result. -/
theorem process_eq_of_call_none {loads model j v}
    (hv : validate_input j = .ok (some v))
    (hc : call_chatgpt model v = none) :
    process_product_request loads model j = .ok chatgptFailedResult := by
  simp [process_product_request, hv, hc]

/-- Step equation: an empty model reply is treated as a model-call failure by the falsiness test. -/
theorem process_eq_of_call_empty {loads model j v}
    (hv : validate_input j = .ok (some v))
    (hc : call_chatgpt model v = some "") :
    process_product_request loads model j = .ok chatgptFailedResult := by
  simp [process_product_request, hv, hc]

/-- Step equation: an uncaught output-validation exception propagates out of the orchestrator. -/
theorem process_eq_of_output_error {loads model j v content e}
    (hv : validate_input j = .ok (some v))
    (hc : call_chatgpt model v = some content)
    (hne : content ≠ "")
    (hvo : validate_chatgpt_response (loads content) = .error e) :
    process_product_request loads model j = .error e := by
  simp [process_product_request, hv, hc, hne, hvo]

/-- Step equation: an invalid model reply yields the output-failure result carrying the raw reply. -/
theorem process_eq_of_output_none {loads model j v content}
    (hv : validate_input j = .ok (some v))
    (hc : call_chatgpt model v = some content)
    (hne : content ≠ "")
    (hvo : validate_chatgpt_response (loads content) = .ok none) :
    process_product_request loads model j = .ok (outputFailedResult content) := by
  simp [process_product_request, hv, hc, hne, hvo]

/-- Step equation: a valid model reply yields the success result. -/
theorem process_eq_of_output_some {loads model j v content out}
    (hv : validate_input j = .ok (some v))
    (hc : call_chatgpt model v = some content)
    (hne : content ≠ "")
    (hvo : validate_chatgpt_response (loads content) = .ok (some out)) :
    process_product_request loads model j = .ok (successResult v out) := by
  simp [process_product_request, hv, hc, hne, hvo]

/-- C2: whenever the pipeline returns a result, its status is one of the four tagged statuses; the raw_response field is present exactly when the status is output_validation_failed; on success the result carries the validated input and the validated output; an invalid input or a failed model call each force the corresponding fixed terminal result, independent of the later stages. -/
theorem c2 (loads : String → LoadResult) (model : String → Option String)
    (j : Json) (r : PipelineResult)
    (h : process_product_request loads model j = .ok r) :
    (r.status = "success" ∨ r.status = "input_validation_failed" ∨
      r.status = "chatgpt_failed" ∨ r.status = "output_validation_failed") ∧
    (r.raw_response.isSome ↔ r.status = "output_validation_failed") ∧
    (r.status = "success" →
      ∃ v out, validate_input j = .ok (some v) ∧ r = successResult v out) ∧
    (validate_input j = .ok none → r = inputFailedResult) ∧
    (∀ v, validate_input j = .ok (some v) → call_chatgpt model v = none →
      r = chatgptFailedResult) := by
  cases hvi : validate_input j with
  | error e =>
    rw [process_eq_of_input_error hvi] at h
    exact absurd h (by simp)
  | ok vi =>
    cases vi with
    | none =>
      rw [process_eq_of_input_none hvi] at h
      have hr : r = inputFailedResult := by
        injection h with h'
        exact h'.symm
      subst hr
      refine ⟨Or.inr (Or.inl rfl), by simp [inputFailedResult], ?_, fun _ => rfl, ?_⟩
      · intro hs; exact absurd hs (by simp [inputFailedResult])
      · intro v hv'
        exact absurd hv' (by simp)
    | some v =>
      cases hcc : call_chatgpt model v with
      | none =>
        rw [process_eq_of_call_none hvi hcc] at h
        have hr : r = chatgptFailedResult := by
          injection h with h'
          exact h'.symm
        subst hr
        refine ⟨Or.inr (Or.inr (Or.inl rfl)), by simp [chatgptFailedResult],
          ?_, ?_, ?_⟩
        · intro hs; exact absurd hs (by simp [chatgptFailedResult])
        · intro hn; exact absurd hn (by simp)
        · intro v' hv' hc'; rfl
      | some content =>
        by_cases hce : content = ""
        · subst hce
          rw [process_eq_of_call_empty hvi hcc] at h
          have hr : r = chatgptFailedResult := by
            injection h with h'
            exact h'.symm
          subst hr
          refine ⟨Or.inr (Or.inr (Or.inl rfl)), by simp [chatgptFailedResult],
            ?_, ?_, ?_⟩
          · intro hs; exact absurd hs (by simp [chatgptFailedResult])
          · intro hn; exact absurd hn (by simp)
          · intro v' hv' hc'; rfl
        · cases hvo : validate_chatgpt_response (loads content) with
          | error e =>
            rw [process_eq_of_output_error hvi hcc hce hvo] at h
            exact absurd h (by simp)
          | ok vo =>
            cases vo with
            | none =>
              rw [process_eq_of_output_none hvi hcc hce hvo] at h
              have hr : r = outputFailedResult content := by
                injection h with h'
                exact h'.symm
              subst hr
              refine ⟨Or.inr (Or.inr (Or.inr rfl)),
                by simp [outputFailedResult], ?_, ?_, ?_⟩
              · intro hs; exact absurd hs (by simp [outputFailedResult])
              · intro hn; exact absurd hn (by simp)
              · intro v' hv' hc'
                have hvv : v = v' := by
                  injection hv' with h''
                  exact Option.some_inj.mp h''
                rw [← hvv] at hc'
                rw [hcc] at hc'
                exact absurd hc' (by simp)
            | some out =>
              rw [process_eq_of_output_some hvi hcc hce hvo] at h
              have hr : r = successResult v out := by
                injection h with h'
                exact h'.symm
              subst hr
              refine ⟨Or.inl rfl, by simp [successResult], ?_, ?_, ?_⟩
              · intro hs; exact ⟨v, out, rfl, rfl⟩
              · intro hn; exact absurd hn (by simp)
              · intro v' hv' hc'
                have hvv : v = v' := by
                  injection hv' with h''
                  exact Option.some_inj.mp h''
                rw [← hvv] at hc'
                rw [hcc] at hc'
                exact absurd hc' (by simp)

set_option maxRecDepth 4096 in
/-- C2 witness: a complete successful pipeline run on the integration-test input with a model client stub returning a well-formed reply, instantiating the theorem's hypothesis. -/
theorem c2_witness :
    ∃ r, process_product_request (fun _ => LoadResult.ok (respToJson sampleResp))
        (fun _ => some "GOOD") sampleJson = .ok r ∧
      (r.status = "success" ∨ r.status = "input_validation_failed" ∨
        r.status = "chatgpt_failed" ∨ r.status = "output_validation_failed") ∧
      (r.raw_response.isSome ↔ r.status = "output_validation_failed") ∧
      r = successResult sampleReq sampleResp := by
  have hrun : process_product_request (fun _ => LoadResult.ok (respToJson sampleResp))
      (fun _ => some "GOOD") sampleJson = .ok (successResult sampleReq sampleResp) := rfl
  have hc := c2 _ _ _ _ hrun
  exact ⟨successResult sampleReq sampleResp, hrun, hc.1, hc.2.1, rfl⟩



/-- C8: the prompt builder is a deterministic function of the validated request that embeds the product name, price, category, the three generation parameters, renders an absent brand as Not specified and an absent description as No description provided, and renders the stock flag as Yes or No. -/
theorem c8 :
    (∀ r1 r2 : ProductListingRequest, r1 = r2 → build_prompt r1 = build_prompt r2) ∧
    (∀ r : ProductListingRequest, ∃ pre post,
      build_prompt r = pre ++ r.product.name ++ post) ∧
    (∀ r : ProductListingRequest, ∃ pre post,
      build_prompt r = pre ++ priceRepr r.product.price ++ post) ∧
    (∀ r : ProductListingRequest, ∃ pre post,
      build_prompt r = pre ++ categoryRepr r.product.category ++ post) ∧
    (∀ r : ProductListingRequest, ∃ pre post,
      build_prompt r = pre ++ r.target_audience ++ post) ∧
    (∀ r : ProductListingRequest, ∃ pre post,
      build_prompt r = pre ++ r.tone ++ post) ∧
    (∀ r : ProductListingRequest, ∃ pre post,
      build_prompt r = pre ++ r.language ++ post) ∧
    (∀ r : ProductListingRequest, r.product.brand = none → ∃ pre post,
      build_prompt r = pre ++ "Not specified" ++ post) ∧
    (∀ r : ProductListingRequest, r.product.description = none → ∃ pre post,
      build_prompt r = pre ++ "No description provided" ++ post) ∧
    (∀ r : ProductListingRequest, r.product.in_stock = true → ∃ pre post,
      build_prompt r = pre ++ "Yes" ++ post) ∧
    (∀ r : ProductListingRequest, r.product.in_stock = false → ∃ pre post,
      build_prompt r = pre ++ "No" ++ post) := by
  refine ⟨fun r1 r2 h => congrArg build_prompt h, ?_, ?_, ?_, ?_, ?_, ?_, ?_, ?_, ?_, ?_⟩
  · intro r
    refine ⟨promptSeg1,
      promptSeg2 ++ priceRepr r.product.price
        ++ promptSeg3 ++ categoryRepr r.product.category
        ++ promptSeg4 ++ brandRepr r.product.brand
        ++ promptSeg5 ++ descriptionRepr r.product.description
        ++ promptSeg6 ++ (if r.product.in_stock then "Yes" else "No")
        ++ promptSeg7 ++ r.target_audience
        ++ promptSeg8 ++ r.tone
        ++ promptSeg9 ++ r.language
        ++ promptSeg10, ?_⟩
    simp [build_prompt, String.append_assoc]
  · intro r
    refine ⟨promptSeg1 ++ r.product.name ++ promptSeg2,
      promptSeg3 ++ categoryRepr r.product.category
        ++ promptSeg4 ++ brandRepr r.product.brand
        ++ promptSeg5 ++ descriptionRepr r.product.description
        ++ promptSeg6 ++ (if r.product.in_stock then "Yes" else "No")
        ++ promptSeg7 ++ r.target_audience
        ++ promptSeg8 ++ r.tone
        ++ promptSeg9 ++ r.language
        ++ promptSeg10, ?_⟩
    simp [build_prompt, String.append_assoc]
  · intro r
    refine ⟨promptSeg1 ++ r.product.name ++ promptSeg2 ++ priceRepr r.product.price
        ++ promptSeg3,
      promptSeg4 ++ brandRepr r.product.brand
        ++ promptSeg5 ++ descriptionRepr r.product.description
        ++ promptSeg6 ++ (if r.product.in_stock then "Yes" else "No")
        ++ promptSeg7 ++ r.target_audience
        ++ promptSeg8 ++ r.tone
        ++ promptSeg9 ++ r.language
        ++ promptSeg10, ?_⟩
    simp [build_prompt, String.append_assoc]
  · intro r
    refine ⟨promptSeg1 ++ r.product.name ++ promptSeg2 ++ priceRepr r.product.price
        ++ promptSeg3 ++ categoryRepr r.product.category
        ++ promptSeg4 ++ brandRepr r.product.brand
        ++ promptSeg5 ++ descriptionRepr r.product.description
        ++ promptSeg6 ++ (if r.product.in_stock then "Yes" else "No")
        ++ promptSeg7,
      promptSeg8 ++ r.tone ++ promptSeg9 ++ r.language ++ promptSeg10, ?_⟩
    simp [build_prompt, String.append_assoc]
  · intro r
    refine ⟨promptSeg1 ++ r.product.name ++ promptSeg2 ++ priceRepr r.product.price
        ++ promptSeg3 ++ categoryRepr r.product.category
        ++ promptSeg4 ++ brandRepr r.product.brand
        ++ promptSeg5 ++ descriptionRepr r.product.description
        ++ promptSeg6 ++ (if r.product.in_stock then "Yes" else "No")
        ++ promptSeg7 ++ r.target_audience ++ promptSeg8,
      promptSeg9 ++ r.language ++ promptSeg10, ?_⟩
    simp [build_prompt, String.append_assoc]
  · intro r
    refine ⟨promptSeg1 ++ r.product.name ++ promptSeg2 ++ priceRepr r.product.price
        ++ promptSeg3 ++ categoryRepr r.product.category
        ++ promptSeg4 ++ brandRepr r.product.brand
        ++ promptSeg5 ++ descriptionRepr r.product.description
        ++ promptSeg6 ++ (if r.product.in_stock then "Yes" else "No")
        ++ promptSeg7 ++ r.target_audience ++ promptSeg8 ++ r.tone ++ promptSeg9,
      promptSeg10, ?_⟩
    simp [build_prompt, String.append_assoc]
  · intro r h
    refine ⟨promptSeg1 ++ r.product.name ++ promptSeg2 ++ priceRepr r.product.price
        ++ promptSeg3 ++ categoryRepr r.product.category ++ promptSeg4,
      promptSeg5 ++ descriptionRepr r.product.description
        ++ promptSeg6 ++ (if r.product.in_stock then "Yes" else "No")
        ++ promptSeg7 ++ r.target_audience
        ++ promptSeg8 ++ r.tone
        ++ promptSeg9 ++ r.language
        ++ promptSeg10, ?_⟩
    simp [build_prompt, String.append_assoc, brandRepr, h]
  · intro r h
    refine ⟨promptSeg1 ++ r.product.name ++ promptSeg2 ++ priceRepr r.product.price
        ++ promptSeg3 ++ categoryRepr r.product.category
        ++ promptSeg4 ++ brandRepr r.product.brand ++ promptSeg5,
      promptSeg6 ++ (if r.product.in_stock then "Yes" else "No")
        ++ promptSeg7 ++ r.target_audience
        ++ promptSeg8 ++ r.tone
        ++ promptSeg9 ++ r.language
        ++ promptSeg10, ?_⟩
    simp [build_prompt, String.append_assoc, descriptionRepr, h]
  · intro r h
    refine ⟨promptSeg1 ++ r.product.name ++ promptSeg2 ++ priceRepr r.product.price
        ++ promptSeg3 ++ categoryRepr r.product.category
        ++ promptSeg4 ++ brandRepr r.product.brand
        ++ promptSeg5 ++ descriptionRepr r.product.description ++ promptSeg6,
      promptSeg7 ++ r.target_audience
        ++ promptSeg8 ++ r.tone
        ++ promptSeg9 ++ r.language
        ++ promptSeg10, ?_⟩
    simp [build_prompt, String.append_assoc, h]
  · intro r h
    refine ⟨promptSeg1 ++ r.product.name ++ promptSeg2 ++ priceRepr r.product.price
        ++ promptSeg3 ++ categoryRepr r.product.category
        ++ promptSeg4 ++ brandRepr r.product.brand
        ++ promptSeg5 ++ descriptionRepr r.product.description ++ promptSeg6,
      promptSeg7 ++ r.target_audience
        ++ promptSeg8 ++ r.tone
        ++ promptSeg9 ++ r.language
        ++ promptSeg10, ?_⟩
    simp [build_prompt, String.append_assoc, h]

/-- C8 witness: the brand-fallback clause applied to a concrete request without a brand, exhibiting the literal Not specified in its prompt. -/
theorem c8_witness :
    ∃ pre post, build_prompt (priceRequest 90) = pre ++ "Not specified" ++ post :=
  c8.2.2.2.2.2.2.2.1 (priceRequest 90) rfl



/-- Inversion for the price validator: an accepted price came from a number strictly positive and at most 1,000,000. -/
theorem validatePrice_some {j : Json} {q : ℚ}
    (h : validatePrice j = some q) :
    j = Json.num q ∧ 0 < q ∧ q ≤ 1000000 := by
  cases j with
  | num p =>
    simp only [validatePrice] at h
    split_ifs at h with h1 h2
    exact ⟨congrArg Json.num (Option.some_inj.mp h),
      Option.some_inj.mp h ▸ h1, Option.some_inj.mp h ▸ h2⟩
  | null => exact absurd h (by simp [validatePrice])
  | bool b => exact absurd h (by simp [validatePrice])
  | str s => exact absurd h (by simp [validatePrice])
  | arr xs => exact absurd h (by simp [validatePrice])
  | obj fs => exact absurd h (by simp [validatePrice])

/-- Inversion for the category validator: an accepted category came from the string equal to its enumeration value. -/
theorem validateCategory_some {j : Json} {c : ProductCategory}
    (h : validateCategory j = some c) :
    j = Json.str c.value := by
  cases j with
  | str s =>
    simp only [validateCategory, ProductCategory.fromString] at h
    split_ifs at h with h1 h2 h3 h4 h5
    · rw [h1, ← Option.some_inj.mp h]; rfl
    · rw [h2, ← Option.some_inj.mp h]; rfl
    · rw [h3, ← Option.some_inj.mp h]; rfl
    · rw [h4, ← Option.some_inj.mp h]; rfl
    · rw [h5, ← Option.some_inj.mp h]; rfl
  | null => exact absurd h (by simp [validateCategory])
  | bool b => exact absurd h (by simp [validateCategory])
  | num q => exact absurd h (by simp [validateCategory])
  | arr xs => exact absurd h (by simp [validateCategory])
  | obj fs => exact absurd h (by simp [validateCategory])

/-- Each category's value string coerces back to the category itself. -/
theorem fromString_value (c : ProductCategory) :
    ProductCategory.fromString c.value = some c := by
  cases c <;> rfl

/-- Re-validating the serialization of an accepted optional string field yields the same value. -/
theorem validateOptStr_roundtrip {m : Nat} {oj : Option Json} {os : Option String}
    (h : validateOptStr m oj = some os) :
    validateOptStr m (some (optStrToJson os)) = some os := by
  cases oj with
  | none =>
    have : os = none := (Option.some_inj.mp h).symm
    subst this
    rfl
  | some jj =>
    cases jj with
    | null =>
      have : os = none := (Option.some_inj.mp h).symm
      subst this
      rfl
    | str s =>
      simp only [validateOptStr] at h
      split_ifs at h with h1
      have : os = some s := (Option.some_inj.mp h).symm
      subst this
      simp [validateOptStr, optStrToJson, h1]
    | bool b => exact absurd h (by simp [validateOptStr])
    | num q => exact absurd h (by simp [validateOptStr])
    | arr xs => exact absurd h (by simp [validateOptStr])
    | obj fs => exact absurd h (by simp [validateOptStr])

/-- Re-validating the dictionary serialization of an accepted product yields the same product. -/
theorem validateProductFields_roundtrip {fields : List (String × Json)} {p : Product}
    (h : validateProductFields fields = some p) :
    validateProductFields [("name", Json.str p.name), ("price", Json.num p.price),
      ("category", Json.str p.category.value),
      ("description", optStrToJson p.description),
      ("brand", optStrToJson p.brand),
      ("in_stock", Json.bool p.in_stock)] = some p := by
  simp only [validateProductFields, Option.bind_eq_bind, Option.bind_eq_some,
    Option.pure_def, Option.some_inj] at h
  obtain ⟨nj, hnj, nm, hnm, pj, hpj, pr, hpr, cj, hcj, c, hc, d, hd, br, hbr,
    st, hst, heq⟩ := h
  subst heq
  obtain ⟨hnstr, hn1, hn2⟩ := validateName_some hnm
  obtain ⟨hpnum, hp1, hp2⟩ := validatePrice_some hpr
  have hdrt := validateOptStr_roundtrip hd
  have hbrt := validateOptStr_roundtrip hbr
  simp [validateProductFields, List.lookup, validateName, hn1, hn2,
    validatePrice, hp1, hp2, validateCategory, fromString_value,
    hdrt, hbrt, validateBoolDefault]

/-- C9: validation is idempotent: a request validated from JSON, serialized back to a dictionary and re-validated, validates successfully to the field-for-field identical value. -/
theorem c9 (j : Json) (req : ProductListingRequest)
    (h : validate_input j = .ok (some req)) :
    validate_input (reqToJson req) = .ok (some req) := by
  cases j with
  | obj fields =>
    simp only [validate_input] at h
    injection h with h'
    simp only [validateRequestFields, Option.bind_eq_bind, Option.bind_eq_some,
      Option.pure_def, Option.some_inj] at h'
    obtain ⟨pj, hpj, prod, hprod, ta, hta, tn, htn, lg, hlg, heq⟩ := h'
    subst heq
    cases pj with
    | obj pfields =>
      simp only [validateProductJson] at hprod
      have hrt := validateProductFields_roundtrip hprod
      simp only [reqToJson, productToJson, validate_input]
      simp [validateRequestFields, List.lookup, validateProductJson, hrt,
        validateStrDefault]
    | null => exact absurd hprod (by simp [validateProductJson])
    | bool b => exact absurd hprod (by simp [validateProductJson])
    | num q => exact absurd hprod (by simp [validateProductJson])
    | str s => exact absurd hprod (by simp [validateProductJson])
    | arr xs => exact absurd hprod (by simp [validateProductJson])
  | null => exact absurd h (by simp [validate_input])
  | bool b => exact absurd h (by simp [validate_input])
  | num q => exact absurd h (by simp [validate_input])
  | str s => exact absurd h (by simp [validate_input])
  | arr xs => exact absurd h (by simp [validate_input])

/-- C9 witness: the round-trip theorem applied to the concrete integration-test request. -/
theorem c9_witness :
    validate_input (reqToJson sampleReq) = .ok (some sampleReq) :=
  c9 sampleJson sampleReq rfl


end AILab
